import Mathlib

/-!
Shallow embedding of the HIPAA security middleware
(`security_middleware.py`, class `HIPAASecurity`).

Modelling conventions:
* Wall-clock time is an `Int` number of seconds since an arbitrary epoch;
  `timedelta(minutes=m)` becomes `m * 60`, `timedelta(days=d)` becomes
  `d * 86400`.
* The Python strings produced by `datetime.isoformat()` and consumed by
  `datetime.fromisoformat()` are modelled by `TimeString`: a well-formed
  ISO string denoting time `t` is `TimeString.iso t`; any string rejected
  by the parser is `TimeString.malformed s`.  `isoformat` never produces
  an empty string, so Python truthiness of a `TimeString` is falsity of
  `.malformed ""` only.
* Python `len` on strings counts characters, modelled by `strLen` over
  `String.data`; slicing `s[:n]` is `strTake`.
* The PostgreSQL tables are lists of records; `INSERT` appends,
  `DELETE ... WHERE p` filters with `¬ p`, a `SELECT ... WHERE p` lookup
  with a primary-key equality is `List.find?`.
* The database-success path and the database-failure (exception) path of
  `log_security_event` are selected by an explicit `dbOk : Bool` flag.
-/

namespace HipaaSec

/-- A Python string holding either a parsable ISO timestamp (identified with
the instant it denotes) or a string `datetime.fromisoformat` rejects. -/
inductive TimeString where
  | iso : Int → TimeString
  | malformed : String → TimeString
deriving DecidableEq

/-- Model of `datetime.fromisoformat`: succeeds exactly on well-formed
ISO strings, returning the denoted instant. -/
def fromisoformat : TimeString → Option Int
  | .iso t => some t
  | .malformed _ => none

/-- Model of `datetime.isoformat` applied to `datetime.now()` at instant `t`. -/
def isoformat (t : Int) : TimeString := .iso t

/-- Python truthiness test `if not last_activity:` on the stored string:
only the empty string is falsy (well-formed ISO strings are nonempty). -/
def TimeString.isFalsy : TimeString → Bool
  | .iso _ => false
  | .malformed s => s == ""

/-- Character count of a string, Python `len(s)`. -/
def strLen (s : String) : Nat := s.data.length

/-- Python slice `s[:n]`. -/
def strTake (s : String) (n : Nat) : String := ⟨s.data.take n⟩

/-- The Flask `session` dict: the keys the middleware reads and writes.
`session.clear()` yields the record with all fields `none`. -/
structure Session where
  user_id : Option String
  user_role : Option String
  last_activity : Option TimeString
deriving DecidableEq

/-- The session after `session.clear()`. -/
def clearedSession : Session := ⟨none, none, none⟩

/-- The middleware configuration dict built in `HIPAASecurity.__init__`. -/
structure Config where
  SESSION_TIMEOUT_MINUTES : Int
  MAX_FAILED_ATTEMPTS : Nat
  LOCKOUT_DURATION_MINUTES : Int
  AUDIT_RETENTION_DAYS : Int
  CSRF_TOKEN_TIMEOUT : Int
deriving DecidableEq

/-- The default configuration from `HIPAASecurity.__init__`
(`AUDIT_RETENTION_DAYS = 365 * 6`). -/
def defaultConfig : Config :=
  { SESSION_TIMEOUT_MINUTES := 15
    MAX_FAILED_ATTEMPTS := 5
    LOCKOUT_DURATION_MINUTES := 15
    AUDIT_RETENTION_DAYS := 365 * 6
    CSRF_TOKEN_TIMEOUT := 3600 }

/-- A row of the `csrf_tokens` table. -/
structure CsrfToken where
  token : String
  user_id : String
  expires_at : Int
deriving DecidableEq

/-- A row of the `failed_attempts` table. -/
structure FailedAttempt where
  user_id : String
  timestamp : Int
  ip_address : String
deriving DecidableEq

/-- A row of the `audit_logs` table, as inserted by `log_security_event`. -/
structure AuditEvent where
  timestamp : Int
  event_type : String
  user_id : String
  ip_address : String
  user_agent : String
  details : String
  severity : String
deriving DecidableEq

/-- The three PostgreSQL tables the middleware owns. -/
structure Store where
  csrf_tokens : List CsrfToken
  failed_attempts : List FailedAttempt
  audit_logs : List AuditEvent
deriving DecidableEq

/-- The request context read by the middleware: the `X-Forwarded-For`
header, `request.remote_addr`, the `User-Agent` header and `request.path`. -/
structure RequestCtx where
  xff : Option String
  remote_addr : Option String
  user_agent : Option String
  path : String
deriving DecidableEq

/-- Characters before the first comma, Python `s.split(',')[0]`. -/
def splitFirstComma : List Char → List Char
  | [] => []
  | c :: cs => if c = ',' then [] else c :: splitFirstComma cs

/-- Python `s.strip()`: drop leading and trailing whitespace. -/
def stripSpaces (l : List Char) : List Char :=
  ((l.dropWhile Char.isWhitespace).reverse.dropWhile Char.isWhitespace).reverse

/-- The candidate IP extracted in `_get_client_ip`:
`value.split(',')[0].strip()`. -/
def extractIp (s : String) : String := ⟨stripSpaces (splitFirstComma s.data)⟩

/-- Decimal value of a digit string; `none` if empty or not all digits. -/
def decimalValue : List Char → Option Nat
  | [] => none
  | [c] => if c.isDigit then some (c.toNat - 48) else none
  | c :: cs =>
    if c.isDigit then
      (decimalValue cs).map (fun n => (c.toNat - 48) * 10 ^ cs.length + n)
    else none

/-- One dotted-quad field accepted by `ipaddress.ip_address`: one to three
digits, value at most 255, no leading zero. -/
def isOctet (l : List Char) : Bool :=
  decide (l.length ≤ 3) &&
  (decide (l.length = 1) || !(l.headD '0' == '0')) &&
  (match decimalValue l with
   | some n => decide (n ≤ 255)
   | none => false)

/-- Split a character list at every `'.'`. -/
def splitOnDot : List Char → List (List Char)
  | [] => [[]]
  | c :: cs =>
    if c = '.' then [] :: splitOnDot cs
    else
      match splitOnDot cs with
      | [] => [[c]]
      | p :: ps => (c :: p) :: ps

/-- Model of `ipaddress.ip_address` acceptance, on IPv4 dotted-quad
strings (four octets, each 0-255, no leading zeros).  Theorems that do
not depend on the exact address grammar quantify over the validator
instead of fixing this one. -/
def isIPAddress (s : String) : Bool :=
  let parts := splitOnDot s.data
  decide (parts.length = 4) && parts.all isOctet

/-- Embedding of `HIPAASecurity._get_client_ip`.  `isIP` is the address
validator (`ipaddress.ip_address` succeeding); a `ValueError` from the
validator, like every other exception, lands in the handler that returns
`'Unknown_IP'`.  A valid address longer than 45 characters yields
`'Invalid_IP'`. -/
def getClientIP (isIP : String → Bool) (xff remote_addr : Option String) : String :=
  match (match xff with | some s => some s | none => remote_addr) with
  | none => "Unknown_IP"
  | some s =>
    let ip := extractIp s
    if isIP ip then
      if strLen ip ≤ 45 then ip else "Invalid_IP"
    else "Unknown_IP"

/-- The audit record built at the top of `log_security_event`: current
time, event type string, session user (default `'anonymous'`), resolved
client IP, `User-Agent` truncated to 500 characters (default
`'Unknown'`), details truncated to 1000 characters, and severity. -/
def mkAuditEvent (now : Int) (sess : Session) (ctx : RequestCtx)
    (event_type details severity : String) : AuditEvent :=
  { timestamp := now
    event_type := event_type
    user_id := sess.user_id.getD "anonymous"
    ip_address := getClientIP isIPAddress ctx.xff ctx.remote_addr
    user_agent := strTake (ctx.user_agent.getD "Unknown") 500
    details := strTake details 1000
    severity := severity }

/-- The line appended to `fallback_security.log` when the database insert
fails: timestamp, event type, (truncated) details and severity joined by
`" - "`. -/
def fallbackLine (e : AuditEvent) : String :=
  toString e.timestamp ++ " - " ++ e.event_type ++ " - " ++ e.details ++ " - "
    ++ e.severity ++ "\n"

/-- Embedding of `HIPAASecurity.log_security_event`.  `dbOk` selects the
database-success path (insert into `audit_logs`) or the exception path
(append `fallbackLine` to the local fallback file).  The function is
total: neither path re-raises to the caller. -/
def logSecurityEvent (dbOk : Bool) (now : Int) (sess : Session) (ctx : RequestCtx)
    (event_type details severity : String)
    (audit_logs : List AuditEvent) (fallback : List String) :
    List AuditEvent × List String :=
  let event := mkAuditEvent now sess ctx event_type details severity
  if dbOk then (audit_logs ++ [event], fallback)
  else (audit_logs, fallback ++ [fallbackLine event])

/-- Embedding of `HIPAASecurity._validate_session` (database-success
path of its internal `log_security_event` call).  Returns the boolean
result, the session as left by the call (cleared on timeout, sliding
`last_activity` refresh on success, otherwise untouched), and the audit
log (a `SESSION_TIMEOUT` event is appended on the timeout branch only). -/
def validateSession (cfg : Config) (now : Int) (ctx : RequestCtx)
    (sess : Session) (audit_logs : List AuditEvent) :
    Bool × Session × List AuditEvent :=
  match sess.user_id with
  | none => (false, sess, audit_logs)
  | some uid =>
    match sess.last_activity with
    | none => (false, sess, audit_logs)
    | some la =>
      if la.isFalsy then (false, sess, audit_logs)
      else
        match fromisoformat la with
        | none => (false, sess, audit_logs)
        | some last_active =>
          if cfg.SESSION_TIMEOUT_MINUTES * 60 < now - last_active then
            (false, clearedSession,
              audit_logs ++ [mkAuditEvent now sess ctx "SESSION_TIMEOUT"
                ("User " ++ uid ++ " session expired") "INFO"])
          else
            (true, { sess with last_activity := some (isoformat now) }, audit_logs)

/-- The `SELECT user_id FROM csrf_tokens WHERE token = %s AND expires_at > NOW()`
lookup (`token` is the primary key). -/
def findCsrfToken (tokens : List CsrfToken) (tok : String) (now : Int) :
    Option CsrfToken :=
  tokens.find? (fun t => t.token == tok && decide (now < t.expires_at))

/-- Embedding of `HIPAASecurity._validate_csrf_token_internal`: the token
must be found unexpired and its stored `user_id` must equal
`session.get('user_id')`; on success the token row is deleted. -/
def validateCsrfTokenInternal (sess : Session) (tokens : List CsrfToken)
    (tok : String) (now : Int) : Bool × List CsrfToken :=
  match findCsrfToken tokens tok now with
  | some r =>
    if sess.user_id = some r.user_id then
      (true, tokens.filter (fun t => !(t.token == tok)))
    else (false, tokens)
  | none => (false, tokens)

/-- Embedding of `HIPAASecurity.generate_csrf_token` (success path):
stores the fresh token bound to `session.get('user_id', 'anonymous')`
with `expires_at = now + CSRF_TOKEN_TIMEOUT`. -/
def generateCsrfToken (cfg : Config) (now : Int) (sess : Session)
    (tok : String) (tokens : List CsrfToken) : List CsrfToken :=
  tokens ++ [{ token := tok
               user_id := sess.user_id.getD "anonymous"
               expires_at := now + cfg.CSRF_TOKEN_TIMEOUT }]

/-- The `SELECT COUNT(*) FROM failed_attempts WHERE user_id = %s AND
timestamp > %s` query of `check_brute_force`, with
`cutoff = now - LOCKOUT_DURATION_MINUTES`. -/
def recentFailedAttempts (cfg : Config) (now : Int) (uid : String)
    (attempts : List FailedAttempt) : Nat :=
  (attempts.filter (fun a =>
    a.user_id == uid && decide (now - cfg.LOCKOUT_DURATION_MINUTES * 60 < a.timestamp))).length

/-- Embedding of `HIPAASecurity.check_brute_force` (database-success
path).  Empty or over-100-character identities are rejected; at
`MAX_FAILED_ATTEMPTS` or more recent failures a `BRUTE_FORCE_LOCKOUT`
event is logged at WARNING and the login is blocked. -/
def checkBruteForce (cfg : Config) (now : Int) (ctx : RequestCtx) (sess : Session)
    (uid : String) (attempts : List FailedAttempt) (audit_logs : List AuditEvent) :
    Bool × List AuditEvent :=
  if uid = "" ∨ 100 < strLen uid then (false, audit_logs)
  else
    let recent := recentFailedAttempts cfg now uid attempts
    if cfg.MAX_FAILED_ATTEMPTS ≤ recent then
      (false, audit_logs ++ [mkAuditEvent now sess ctx "BRUTE_FORCE_LOCKOUT"
        ("User " ++ uid ++ " locked out due to " ++ toString recent ++ " failed attempts")
        "WARNING"])
    else (true, audit_logs)

/-- Embedding of `HIPAASecurity.record_failed_attempt` (success path). -/
def recordFailedAttempt (now : Int) (ctx : RequestCtx) (uid : String)
    (attempts : List FailedAttempt) : List FailedAttempt :=
  attempts ++ [{ user_id := uid
                 timestamp := now
                 ip_address := getClientIP isIPAddress ctx.xff ctx.remote_addr }]

/-- Embedding of `HIPAASecurity.clear_failed_attempts`:
`DELETE FROM failed_attempts WHERE user_id = %s`. -/
def clearFailedAttempts (uid : String) (attempts : List FailedAttempt) :
    List FailedAttempt :=
  attempts.filter (fun a => !(a.user_id == uid))

/-- Embedding of `HIPAASecurity._cleanup_old_data`: drop expired CSRF
tokens and failed attempts / audit events strictly older than
`AUDIT_RETENTION_DAYS`. -/
def cleanupOldData (cfg : Config) (now : Int) (store : Store) : Store :=
  let cutoff := now - cfg.AUDIT_RETENTION_DAYS * 86400
  { csrf_tokens := store.csrf_tokens.filter (fun t => !decide (t.expires_at < now))
    failed_attempts := store.failed_attempts.filter (fun a => !decide (a.timestamp < cutoff))
    audit_logs := store.audit_logs.filter (fun e => !decide (e.timestamp < cutoff)) }

/-- The response of a guard: a redirect, or the wrapped operation's value. -/
inductive GuardResp (R : Type) where
  | redirect : String → GuardResp R
  | ok : R → GuardResp R
deriving DecidableEq

/-- Result of running a guard: session, audit log, the domain state the
wrapped operation acts on, and the response. -/
structure GuardOutcome (D R : Type) where
  sess : Session
  audit_logs : List AuditEvent
  dom : D
  resp : GuardResp R

/-- A protected operation: it may read and change the session, the audit
log and the domain state, and produces a value. -/
def ProtectedOp (D R : Type) :=
  Session → List AuditEvent → D → Session × List AuditEvent × D × R

/-- The `user_role not in required_roles` test of `require_role` (an
absent role never matches). -/
def hasRole (sess : Session) (roles : List String) : Bool :=
  match sess.user_role with
  | some r => roles.contains r
  | none => false

/-- Embedding of the wrapper built by `HIPAASecurity.require_authentication`:
validate the session; on failure log `UNAUTHENTICATED_ACCESS` at WARNING
and redirect to `/login` without running `op`; on success run `op`. -/
def requireAuthentication {D R : Type} (cfg : Config) (now : Int) (ctx : RequestCtx)
    (op : ProtectedOp D R) (sess : Session) (audit_logs : List AuditEvent) (d : D) :
    GuardOutcome D R :=
  let v := validateSession cfg now ctx sess audit_logs
  if v.1 then
    let o := op v.2.1 v.2.2 d
    ⟨o.1, o.2.1, o.2.2.1, .ok o.2.2.2⟩
  else
    ⟨v.2.1,
      v.2.2 ++ [mkAuditEvent now v.2.1 ctx "UNAUTHENTICATED_ACCESS"
        ("Attempted access to " ++ ctx.path) "WARNING"],
      d, .redirect "/login"⟩

/-- Python `str` formatting of `session.get(...)` values (`None` prints
as the word `None`), used in the `require_role` detail string. -/
def fmtOpt : Option String → String
  | some s => s
  | none => "None"

/-- Embedding of the wrapper built by `HIPAASecurity.require_role`:
validate the session (redirect to `/login` on failure, with no extra
audit record); then require the session role to be one of the allowed
roles, logging `UNAUTHORIZED_ROLE_ACCESS` at WARNING and redirecting to
`/unauthorized` on mismatch; otherwise run `op`. -/
def requireRole {D R : Type} (cfg : Config) (now : Int) (ctx : RequestCtx)
    (roles : List String) (op : ProtectedOp D R)
    (sess : Session) (audit_logs : List AuditEvent) (d : D) : GuardOutcome D R :=
  let v := validateSession cfg now ctx sess audit_logs
  if v.1 then
    if hasRole v.2.1 roles then
      let o := op v.2.1 v.2.2 d
      ⟨o.1, o.2.1, o.2.2.1, .ok o.2.2.2⟩
    else
      ⟨v.2.1,
        v.2.2 ++ [mkAuditEvent now v.2.1 ctx "UNAUTHORIZED_ROLE_ACCESS"
          ("User " ++ fmtOpt v.2.1.user_id ++ " with role " ++ fmtOpt v.2.1.user_role
            ++ " attempted access to " ++ ctx.path ++ " requiring " ++ toString roles)
          "WARNING"],
        d, .redirect "/unauthorized"⟩
  else ⟨v.2.1, v.2.2, d, .redirect "/login"⟩

/-- C1: CSRF tokens are single-use.  If the lookup finds an unexpired
row `r` for `tok` and the session's `user_id` equals the stored owner,
then validation returns `true` and deletes the row, and any second
validation of the same token (under any session, at any time) returns
`false`. -/
theorem csrf_token_single_use (sess : Session) (tokens : List CsrfToken)
    (tok : String) (now : Int) (r : CsrfToken)
    (hfind : findCsrfToken tokens tok now = some r)
    (howner : sess.user_id = some r.user_id) :
    validateCsrfTokenInternal sess tokens tok now
      = (true, tokens.filter (fun t => !(t.token == tok))) ∧
    ∀ (sess2 : Session) (now2 : Int),
      (validateCsrfTokenInternal sess2
        (tokens.filter (fun t => !(t.token == tok))) tok now2).1 = false := by
  constructor
  · unfold validateCsrfTokenInternal
    rw [hfind]
    simp [howner]
  · intro sess2 now2
    unfold validateCsrfTokenInternal findCsrfToken
    have hnone : (tokens.filter (fun t => !(t.token == tok))).find?
        (fun t => t.token == tok && decide (now2 < t.expires_at)) = none := by
      rw [List.find?_eq_none]
      intro x hx
      have hq := (List.mem_filter.mp hx).2
      simp only [Bool.not_eq_true', beq_eq_false_iff_ne, ne_eq] at hq
      simp only [Bool.and_eq_true, beq_iff_eq, not_and]
      intro h
      exact absurd h hq
    rw [hnone]

/-- Witness for C1 at a concrete store: a single unexpired token owned by
`alice`, first validated under `alice`'s session, then re-validated. -/
theorem csrf_token_single_use_witness :
    (findCsrfToken [⟨"tok", "alice", 100⟩] "tok" 0 = some ⟨"tok", "alice", 100⟩) ∧
    (Session.user_id ⟨some "alice", none, none⟩ = some "alice") ∧
    validateCsrfTokenInternal ⟨some "alice", none, none⟩ [⟨"tok", "alice", 100⟩] "tok" 0
      = (true, List.filter (fun t => !(t.token == "tok")) [⟨"tok", "alice", 100⟩]) ∧
    (validateCsrfTokenInternal ⟨some "alice", none, none⟩
        (List.filter (fun t => !(t.token == "tok")) [⟨"tok", "alice", 100⟩]) "tok" 50).1
      = false := by
  have h := csrf_token_single_use ⟨some "alice", none, none⟩ [⟨"tok", "alice", 100⟩]
    "tok" 0 ⟨"tok", "alice", 100⟩ (by decide) (by decide)
  exact ⟨by decide, by decide, h.1, h.2 ⟨some "alice", none, none⟩ 50⟩

/-- C4: a CSRF token stored for user A never validates under a session
whose `user_id` differs: even when the token is found and unexpired,
validation returns `false` and leaves the store unchanged. -/
theorem csrf_token_wrong_user_rejected (sess : Session) (tokens : List CsrfToken)
    (tok : String) (now : Int) (r : CsrfToken)
    (hfind : findCsrfToken tokens tok now = some r)
    (hdiff : sess.user_id ≠ some r.user_id) :
    validateCsrfTokenInternal sess tokens tok now = (false, tokens) := by
  unfold validateCsrfTokenInternal
  rw [hfind]
  simp [hdiff]

/-- Witness for C4: a token owned by `alice`, unexpired and present,
rejected under `bob`'s session. -/
theorem csrf_token_wrong_user_rejected_witness :
    (findCsrfToken [⟨"tok", "alice", 100⟩] "tok" 0 = some ⟨"tok", "alice", 100⟩) ∧
    (Session.user_id ⟨some "bob", none, none⟩ ≠ some "alice") ∧
    validateCsrfTokenInternal ⟨some "bob", none, none⟩ [⟨"tok", "alice", 100⟩] "tok" 0
      = (false, [⟨"tok", "alice", 100⟩]) := by
  have h := csrf_token_wrong_user_rejected ⟨some "bob", none, none⟩
    [⟨"tok", "alice", 100⟩] "tok" 0 ⟨"tok", "alice", 100⟩ (by decide) (by decide)
  exact ⟨by decide, by decide, h⟩

/-- C10 counterexample: a token issued while the session has no
`user_id` is stored with owner `"anonymous"`, and a later session whose
`user_id` is the literal string `"anonymous"` validates it successfully
— so it is not true that every subsequent validation returns false. -/
theorem csrf_anonymous_token_validates_counterexample :
    (clearedSession.user_id = none) ∧
    generateCsrfToken defaultConfig 0 clearedSession "tok" []
      = [⟨"tok", "anonymous", 3600⟩] ∧
    validateCsrfTokenInternal ⟨some "anonymous", none, none⟩
      (generateCsrfToken defaultConfig 0 clearedSession "tok" []) "tok" 1
      = (true, []) := by decide

/-- C10 amended: a token issued while the session has no `user_id` is
stored bound to the literal owner `"anonymous"`, and it never validates
under any session whose `user_id` differs from `some "anonymous"` — in
particular under every session with no `user_id`, since the comparison
is against `session.get('user_id')`. -/
theorem csrf_anonymous_token_never_validates (cfg : Config) (now : Int)
    (sessIssue : Session) (tok : String) (tokens : List CsrfToken)
    (hIssue : sessIssue.user_id = none) :
    generateCsrfToken cfg now sessIssue tok tokens
      = tokens ++ [⟨tok, "anonymous", now + cfg.CSRF_TOKEN_TIMEOUT⟩] ∧
    ∀ (tokens2 : List CsrfToken) (sess2 : Session) (now2 : Int),
      (∀ r ∈ tokens2, r.token = tok → r.user_id = "anonymous") →
      sess2.user_id ≠ some "anonymous" →
      (validateCsrfTokenInternal sess2 tokens2 tok now2).1 = false := by
  constructor
  · simp [generateCsrfToken, hIssue]
  · intro tokens2 sess2 now2 hAnon hdiff
    unfold validateCsrfTokenInternal
    cases hfind : findCsrfToken tokens2 tok now2 with
    | none => rfl
    | some r =>
      have hmem : r ∈ tokens2 := List.mem_of_find?_eq_some hfind
      have hpred := List.find?_some hfind
      simp only [Bool.and_eq_true, beq_iff_eq, decide_eq_true_eq] at hpred
      have hr : r.user_id = "anonymous" := hAnon r hmem hpred.1
      have : sess2.user_id ≠ some r.user_id := by rw [hr]; exact hdiff
      simp [this]

/-- Witness for C10 amended: the anonymous issuance at time 0 and a
rejected validation under a session with no `user_id`. -/
theorem csrf_anonymous_token_never_validates_witness :
    (clearedSession.user_id = none) ∧
    generateCsrfToken defaultConfig 0 clearedSession "tok" []
      = [] ++ [⟨"tok", "anonymous", 0 + defaultConfig.CSRF_TOKEN_TIMEOUT⟩] ∧
    (∀ r ∈ [(⟨"tok", "anonymous", 3600⟩ : CsrfToken)],
      r.token = "tok" → r.user_id = "anonymous") ∧
    (clearedSession.user_id ≠ some "anonymous") ∧
    (validateCsrfTokenInternal clearedSession [⟨"tok", "anonymous", 3600⟩] "tok" 1).1
      = false := by
  have h := csrf_anonymous_token_never_validates defaultConfig 0 clearedSession
    "tok" [] (by decide)
  exact ⟨by decide, h.1,
    by decide, by decide,
    h.2 [⟨"tok", "anonymous", 3600⟩] clearedSession 1 (by decide) (by decide)⟩

/-- A concrete request context used by the concrete-input theorems. -/
def ctx0 : RequestCtx := ⟨some "1.2.3.4", none, some "UA", "/lesson"⟩

/-- C2 counterexample: with `user_id` present but an unparsable
`last_activity`, validation returns false yet the session is NOT
cleared (clearing happens on the timeout branch only). -/
theorem session_not_cleared_counterexample :
    (validateSession defaultConfig 0 ctx0
      ⟨some "alice", none, some (.malformed "garbage")⟩ []).1 = false ∧
    (validateSession defaultConfig 0 ctx0
      ⟨some "alice", none, some (.malformed "garbage")⟩ []).2.1
      = ⟨some "alice", none, some (.malformed "garbage")⟩ ∧
    (⟨some "alice", none, some (.malformed "garbage")⟩ : Session) ≠ clearedSession := by
  decide

/-- C2 amended: session validation returns false when `user_id` is
absent, when `last_activity` is absent or unparsable (in those cases the
session and audit log are left unchanged — no clearing), and when the
elapsed time strictly exceeds `SESSION_TIMEOUT_MINUTES` — only in that
case the session is cleared and a `SESSION_TIMEOUT` (INFO) event is
logged; otherwise (including exactly at the threshold) it returns true
and slides `last_activity` to the current time. -/
theorem session_validation_amended (cfg : Config) (now : Int) (ctx : RequestCtx)
    (sess : Session) (audit_logs : List AuditEvent) :
    (sess.user_id = none →
      validateSession cfg now ctx sess audit_logs = (false, sess, audit_logs)) ∧
    (sess.last_activity = none →
      validateSession cfg now ctx sess audit_logs = (false, sess, audit_logs)) ∧
    (∀ la, sess.last_activity = some la → fromisoformat la = none →
      validateSession cfg now ctx sess audit_logs = (false, sess, audit_logs)) ∧
    (∀ uid la t, sess.user_id = some uid → sess.last_activity = some la →
      fromisoformat la = some t → cfg.SESSION_TIMEOUT_MINUTES * 60 < now - t →
      validateSession cfg now ctx sess audit_logs
        = (false, clearedSession,
            audit_logs ++ [mkAuditEvent now sess ctx "SESSION_TIMEOUT"
              ("User " ++ uid ++ " session expired") "INFO"])) ∧
    (∀ uid la t, sess.user_id = some uid → sess.last_activity = some la →
      fromisoformat la = some t → now - t ≤ cfg.SESSION_TIMEOUT_MINUTES * 60 →
      validateSession cfg now ctx sess audit_logs
        = (true, { sess with last_activity := some (isoformat now) }, audit_logs)) := by
  refine ⟨?_, ?_, ?_, ?_, ?_⟩
  · intro h
    simp [validateSession, h]
  · intro h
    cases hu : sess.user_id with
    | none => simp [validateSession, hu]
    | some uid => simp [validateSession, hu, h]
  · intro la hla hparse
    cases hu : sess.user_id with
    | none => simp [validateSession, hu]
    | some uid =>
      cases la with
      | iso t => exact absurd hparse (by simp [fromisoformat])
      | malformed s =>
        by_cases hs : s = ""
        · simp [validateSession, hu, hla, TimeString.isFalsy, hs]
        · simp [validateSession, hu, hla, TimeString.isFalsy, hs, fromisoformat]
  · intro uid la t hu hla hparse htime
    cases la with
    | malformed s => exact absurd hparse (by simp [fromisoformat])
    | iso t0 =>
      have ht : t0 = t := by simpa [fromisoformat] using hparse
      subst ht
      simp [validateSession, hu, hla, TimeString.isFalsy, fromisoformat, htime]
  · intro uid la t hu hla hparse htime
    cases la with
    | malformed s => exact absurd hparse (by simp [fromisoformat])
    | iso t0 =>
      have ht : t0 = t := by simpa [fromisoformat] using hparse
      subst ht
      have hnot := not_lt.mpr htime
      simp [validateSession, hu, hla, TimeString.isFalsy, fromisoformat, hnot]

/-- Witness for C2 amended: a session with no `user_id`; an expired
session (elapsed 1000s > 900s) that is cleared with a timeout event;
and a boundary session (elapsed exactly 900s) that stays valid and
slides. -/
theorem session_validation_amended_witness :
    (clearedSession.user_id = none) ∧
    validateSession defaultConfig 0 ctx0 clearedSession [] = (false, clearedSession, []) ∧
    ((defaultConfig.SESSION_TIMEOUT_MINUTES * 60 : Int) < 1000 - 0) ∧
    validateSession defaultConfig 1000 ctx0 ⟨some "alice", none, some (.iso 0)⟩ []
      = (false, clearedSession,
          [] ++ [mkAuditEvent 1000 ⟨some "alice", none, some (.iso 0)⟩ ctx0
            "SESSION_TIMEOUT" ("User " ++ "alice" ++ " session expired") "INFO"]) ∧
    ((900 : Int) - 0 ≤ defaultConfig.SESSION_TIMEOUT_MINUTES * 60) ∧
    validateSession defaultConfig 900 ctx0 ⟨some "alice", none, some (.iso 0)⟩ []
      = (true, ⟨some "alice", none, some (isoformat 900)⟩, []) := by
  have h1 := (session_validation_amended defaultConfig 0 ctx0 clearedSession []).1 rfl
  have h4 := (session_validation_amended defaultConfig 1000 ctx0
    ⟨some "alice", none, some (.iso 0)⟩ []).2.2.2.1 "alice" (.iso 0) 0
    rfl rfl rfl (by decide)
  have h5 := (session_validation_amended defaultConfig 900 ctx0
    ⟨some "alice", none, some (.iso 0)⟩ []).2.2.2.2 "alice" (.iso 0) 0
    rfl rfl rfl (by decide)
  exact ⟨rfl, h1, by decide, h4, by decide, h5⟩

/-- C3 counterexample: the empty identity has zero recent failures and
length at most 100, yet `check_brute_force` returns false (the
`if not user_id` test rejects it) — contradicting "returns true
otherwise". -/
theorem brute_force_empty_identity_counterexample :
    (checkBruteForce defaultConfig 0 ctx0 clearedSession "" [] []).1 = false ∧
    recentFailedAttempts defaultConfig 0 "" [] < defaultConfig.MAX_FAILED_ATTEMPTS ∧
    strLen "" ≤ 100 := by decide

/-- C3 amended: `check_brute_force` rejects identities longer than 100
characters and also the empty identity; for a nonempty identity of at
most 100 characters it returns false and logs `BRUTE_FORCE_LOCKOUT` at
WARNING when the count of failures inside the trailing window reaches
`MAX_FAILED_ATTEMPTS`, and returns true (logging nothing) below the
threshold.  A record is counted exactly when it belongs to the identity
and its age is strictly less than `LOCKOUT_DURATION_MINUTES`. -/
theorem check_brute_force_amended (cfg : Config) (now : Int) (ctx : RequestCtx)
    (sess : Session) (uid : String) (attempts : List FailedAttempt)
    (audit_logs : List AuditEvent) :
    (100 < strLen uid →
      checkBruteForce cfg now ctx sess uid attempts audit_logs = (false, audit_logs)) ∧
    (uid = "" →
      checkBruteForce cfg now ctx sess uid attempts audit_logs = (false, audit_logs)) ∧
    (uid ≠ "" → strLen uid ≤ 100 →
      cfg.MAX_FAILED_ATTEMPTS ≤ recentFailedAttempts cfg now uid attempts →
      checkBruteForce cfg now ctx sess uid attempts audit_logs
        = (false, audit_logs ++ [mkAuditEvent now sess ctx "BRUTE_FORCE_LOCKOUT"
            ("User " ++ uid ++ " locked out due to "
              ++ toString (recentFailedAttempts cfg now uid attempts)
              ++ " failed attempts") "WARNING"])) ∧
    (uid ≠ "" → strLen uid ≤ 100 →
      recentFailedAttempts cfg now uid attempts < cfg.MAX_FAILED_ATTEMPTS →
      checkBruteForce cfg now ctx sess uid attempts audit_logs = (true, audit_logs)) ∧
    (∀ a ∈ attempts,
      ((a.user_id == uid && decide (now - cfg.LOCKOUT_DURATION_MINUTES * 60 < a.timestamp)) = true
        ↔ (a.user_id = uid ∧ now - a.timestamp < cfg.LOCKOUT_DURATION_MINUTES * 60))) := by
  refine ⟨?_, ?_, ?_, ?_, ?_⟩
  · intro h
    simp [checkBruteForce, h]
  · intro h
    simp [checkBruteForce, h]
  · intro h1 h2 h3
    have hcond : ¬(uid = "" ∨ 100 < strLen uid) := by
      rintro (h | h)
      · exact h1 h
      · exact absurd h (not_lt.mpr h2)
    simp [checkBruteForce, hcond, h3]
  · intro h1 h2 h3
    have hcond : ¬(uid = "" ∨ 100 < strLen uid) := by
      rintro (h | h)
      · exact h1 h
      · exact absurd h (not_lt.mpr h2)
    have hlt := not_le.mpr h3
    simp [checkBruteForce, hcond, hlt]
  · intro a _
    simp only [Bool.and_eq_true, beq_iff_eq, decide_eq_true_eq]
    refine and_congr_right fun _ => ?_
    omega

/-- Witness for C3 amended: a 101-character identity is rejected; five
in-window failures lock `alice` out with a WARNING event; a single
out-of-window failure leaves the login allowed. -/
theorem check_brute_force_amended_witness :
    (100 < strLen (String.mk (List.replicate 101 'a'))) ∧
    checkBruteForce defaultConfig 200 ctx0 clearedSession
      (String.mk (List.replicate 101 'a')) [] [] = (false, []) ∧
    (defaultConfig.MAX_FAILED_ATTEMPTS ≤
      recentFailedAttempts defaultConfig 200 "alice"
        (List.replicate 5 ⟨"alice", 100, "ip"⟩)) ∧
    checkBruteForce defaultConfig 200 ctx0 clearedSession "alice"
      (List.replicate 5 ⟨"alice", 100, "ip"⟩) []
      = (false, [] ++ [mkAuditEvent 200 clearedSession ctx0 "BRUTE_FORCE_LOCKOUT"
          ("User " ++ "alice" ++ " locked out due to "
            ++ toString (recentFailedAttempts defaultConfig 200 "alice"
                (List.replicate 5 ⟨"alice", 100, "ip"⟩))
            ++ " failed attempts") "WARNING"]) ∧
    (recentFailedAttempts defaultConfig 200 "alice" [⟨"alice", -1000, "ip"⟩]
      < defaultConfig.MAX_FAILED_ATTEMPTS) ∧
    checkBruteForce defaultConfig 200 ctx0 clearedSession "alice"
      [⟨"alice", -1000, "ip"⟩] [] = (true, []) := by
  have h1 := (check_brute_force_amended defaultConfig 200 ctx0 clearedSession
    (String.mk (List.replicate 101 'a')) [] []).1 (by decide)
  have h3 := (check_brute_force_amended defaultConfig 200 ctx0 clearedSession
    "alice" (List.replicate 5 ⟨"alice", 100, "ip"⟩) []).2.2.1
    (by decide) (by decide) (by decide)
  have h4 := (check_brute_force_amended defaultConfig 200 ctx0 clearedSession
    "alice" [⟨"alice", -1000, "ip"⟩] []).2.2.2.1 (by decide) (by decide) (by decide)
  exact ⟨by decide, h1, by decide, h3, by decide, h4⟩

/-- C8: immediately after `clear_failed_attempts(I)` removes every
failed-attempt record for `I`, `check_brute_force(I)` returns true for
any valid (nonempty, at most 100 characters) identity, whatever the
prior history was. -/
theorem clear_then_check_allows (cfg : Config) (now : Int) (ctx : RequestCtx)
    (sess : Session) (uid : String) (attempts : List FailedAttempt)
    (audit_logs : List AuditEvent)
    (h1 : uid ≠ "") (h2 : strLen uid ≤ 100) (h3 : 0 < cfg.MAX_FAILED_ATTEMPTS) :
    checkBruteForce cfg now ctx sess uid (clearFailedAttempts uid attempts) audit_logs
      = (true, audit_logs) := by
  have hzero : recentFailedAttempts cfg now uid (clearFailedAttempts uid attempts) = 0 := by
    unfold recentFailedAttempts clearFailedAttempts
    rw [List.length_eq_zero, List.filter_filter, List.filter_eq_nil_iff]
    intro a _
    by_cases hbe : a.user_id == uid <;> simp [hbe]
  have hcond : ¬(uid = "" ∨ 100 < strLen uid) := by
    rintro (h | h)
    · exact h1 h
    · exact absurd h (not_lt.mpr h2)
  have hlt : ¬(cfg.MAX_FAILED_ATTEMPTS ≤ recentFailedAttempts cfg now uid
      (clearFailedAttempts uid attempts)) := by
    rw [hzero]; omega
  simp [checkBruteForce, hcond, hlt]

/-- Witness for C8: seven recent failures for `alice` are cleared and
the next check allows the login. -/
theorem clear_then_check_allows_witness :
    ("alice" : String) ≠ "" ∧ strLen "alice" ≤ 100 ∧
    0 < defaultConfig.MAX_FAILED_ATTEMPTS ∧
    checkBruteForce defaultConfig 200 ctx0 clearedSession "alice"
      (clearFailedAttempts "alice" (List.replicate 7 ⟨"alice", 100, "ip"⟩)) []
      = (true, []) := by
  refine ⟨by decide, by decide, by decide, ?_⟩
  exact clear_then_check_allows defaultConfig 200 ctx0 clearedSession "alice"
    (List.replicate 7 ⟨"alice", 100, "ip"⟩) [] (by decide) (by decide) (by decide)

/-- C5: the guards never run the wrapped operation on denial.  When
session validation fails, both guards produce an outcome that does not
depend on the operation at all, leave the domain state untouched and
redirect to `/login`; when the session is valid but the role is not
allowed, `require_role` likewise produces an op-independent outcome,
leaves the domain state untouched and redirects to `/unauthorized`.
Denial is decided before the operation runs, never rolled back after. -/
theorem guards_no_partial_execution {D R : Type} (cfg : Config) (now : Int)
    (ctx : RequestCtx) (roles : List String) (op op2 : ProtectedOp D R)
    (sess : Session) (audit_logs : List AuditEvent) (d : D) :
    ((validateSession cfg now ctx sess audit_logs).1 = false →
      requireAuthentication cfg now ctx op sess audit_logs d
        = requireAuthentication cfg now ctx op2 sess audit_logs d ∧
      (requireAuthentication cfg now ctx op sess audit_logs d).dom = d ∧
      (requireAuthentication cfg now ctx op sess audit_logs d).resp
        = .redirect "/login") ∧
    ((validateSession cfg now ctx sess audit_logs).1 = false →
      requireRole cfg now ctx roles op sess audit_logs d
        = requireRole cfg now ctx roles op2 sess audit_logs d ∧
      (requireRole cfg now ctx roles op sess audit_logs d).dom = d ∧
      (requireRole cfg now ctx roles op sess audit_logs d).resp
        = .redirect "/login") ∧
    ((validateSession cfg now ctx sess audit_logs).1 = true →
      hasRole (validateSession cfg now ctx sess audit_logs).2.1 roles = false →
      requireRole cfg now ctx roles op sess audit_logs d
        = requireRole cfg now ctx roles op2 sess audit_logs d ∧
      (requireRole cfg now ctx roles op sess audit_logs d).dom = d ∧
      (requireRole cfg now ctx roles op sess audit_logs d).resp
        = .redirect "/unauthorized") := by
  refine ⟨?_, ?_, ?_⟩
  · intro h
    refine ⟨?_, ?_, ?_⟩ <;> simp [requireAuthentication, h]
  · intro h
    refine ⟨?_, ?_, ?_⟩ <;> simp [requireRole, h]
  · intro h hrole
    refine ⟨?_, ?_, ?_⟩ <;> simp [requireRole, h, hrole]

/-- Witness for C5 at two concrete operations that write different
domain values: an invalid session for both guards, and a valid `staff`
session denied the `admin` role. -/
theorem guards_no_partial_execution_witness :
    ((validateSession defaultConfig 0 ctx0 clearedSession []).1 = false) ∧
    requireAuthentication defaultConfig 0 ctx0
        (fun s a d => (s, a, d + 1, 0)) clearedSession [] (5 : Nat)
      = requireAuthentication defaultConfig 0 ctx0
        (fun s a d => (s, a, d + 2, (1 : Nat))) clearedSession [] 5 ∧
    (requireAuthentication defaultConfig 0 ctx0
        (fun s a d => (s, a, d + 1, (0 : Nat))) clearedSession [] (5 : Nat)).dom = 5 ∧
    ((validateSession defaultConfig 0 ctx0
        ⟨some "alice", some "staff", some (.iso 0)⟩ []).1 = true) ∧
    (hasRole (validateSession defaultConfig 0 ctx0
        ⟨some "alice", some "staff", some (.iso 0)⟩ []).2.1 ["admin"] = false) ∧
    requireRole defaultConfig 0 ctx0 ["admin"]
        (fun s a d => (s, a, d + 1, 0)) ⟨some "alice", some "staff", some (.iso 0)⟩ [] (5 : Nat)
      = requireRole defaultConfig 0 ctx0 ["admin"]
        (fun s a d => (s, a, d + 2, (1 : Nat))) ⟨some "alice", some "staff", some (.iso 0)⟩ [] 5 ∧
    (requireRole defaultConfig 0 ctx0 ["admin"]
        (fun s a d => (s, a, d + 1, (0 : Nat))) ⟨some "alice", some "staff", some (.iso 0)⟩ [] (5 : Nat)).resp
      = .redirect "/unauthorized" := by
  have hAuth := (guards_no_partial_execution defaultConfig 0 ctx0 ["admin"]
    (fun s a d => (s, a, d + 1, (0 : Nat))) (fun s a d => (s, a, d + 2, 1))
    clearedSession [] (5 : Nat)).1 (by decide)
  have hRole := (guards_no_partial_execution defaultConfig 0 ctx0 ["admin"]
    (fun s a d => (s, a, d + 1, (0 : Nat))) (fun s a d => (s, a, d + 2, 1))
    ⟨some "alice", some "staff", some (.iso 0)⟩ [] (5 : Nat)).2.2 (by decide) (by decide)
  exact ⟨by decide, hAuth.1, hAuth.2.1, by decide, by decide, hRole.1, hRole.2.2⟩

/-- C6 counterexample: when the database insert fails, two events that
differ only in the session user produce identical fallback-file output,
while the records that would have been inserted differ — so the
fallback does NOT receive the same record (it drops `user_id`, the IP
and the user agent). -/
theorem audit_fallback_drops_fields_counterexample :
    (logSecurityEvent false 5 ⟨some "alice", none, none⟩ ctx0
        "LOGIN_FAILED" "bad login" "WARNING" [] []).2
      = (logSecurityEvent false 5 ⟨some "bob", none, none⟩ ctx0
        "LOGIN_FAILED" "bad login" "WARNING" [] []).2 ∧
    mkAuditEvent 5 ⟨some "alice", none, none⟩ ctx0 "LOGIN_FAILED" "bad login" "WARNING"
      ≠ mkAuditEvent 5 ⟨some "bob", none, none⟩ ctx0 "LOGIN_FAILED" "bad login" "WARNING" :=
  ⟨rfl, by decide⟩

/-- C6 amended: `log_security_event` never raises to the caller on a
store failure (both paths of the embedding are total and return
normally); on failure the audit table is untouched and exactly one line
is appended to the fallback file, carrying the event's timestamp, event
type, truncated details and severity; the fallback line is independent
of the record's `user_id`, IP address and user agent, so those fields
of the would-have-been-inserted record are not preserved. -/
theorem audit_fallback_amended (now : Int) (sess : Session) (ctx : RequestCtx)
    (etype details severity : String) (audit_logs : List AuditEvent)
    (fallback : List String) :
    logSecurityEvent false now sess ctx etype details severity audit_logs fallback
      = (audit_logs,
          fallback ++ [fallbackLine (mkAuditEvent now sess ctx etype details severity)]) ∧
    logSecurityEvent true now sess ctx etype details severity audit_logs fallback
      = (audit_logs ++ [mkAuditEvent now sess ctx etype details severity], fallback) ∧
    (∀ e1 e2 : AuditEvent, e1.timestamp = e2.timestamp → e1.event_type = e2.event_type →
      e1.details = e2.details → e1.severity = e2.severity →
      fallbackLine e1 = fallbackLine e2) := by
  refine ⟨rfl, rfl, ?_⟩
  intro e1 e2 h1 h2 h3 h4
  unfold fallbackLine
  rw [h1, h2, h3, h4]

/-- Witness for C6 amended at a concrete event, with two records that
agree on the four fallback fields but differ in `user_id`, IP and user
agent. -/
theorem audit_fallback_amended_witness :
    logSecurityEvent false 5 ⟨some "alice", none, none⟩ ctx0 "LOGIN_FAILED" "bad" "WARNING" [] []
      = ([], [] ++ [fallbackLine (mkAuditEvent 5 ⟨some "alice", none, none⟩ ctx0
          "LOGIN_FAILED" "bad" "WARNING")]) ∧
    (AuditEvent.timestamp ⟨5, "E", "u1", "ip1", "ua1", "d", "INFO"⟩
      = AuditEvent.timestamp ⟨5, "E", "u2", "ip2", "ua2", "d", "INFO"⟩) ∧
    fallbackLine ⟨5, "E", "u1", "ip1", "ua1", "d", "INFO"⟩
      = fallbackLine ⟨5, "E", "u2", "ip2", "ua2", "d", "INFO"⟩ := by
  have h := audit_fallback_amended 5 ⟨some "alice", none, none⟩ ctx0
    "LOGIN_FAILED" "bad" "WARNING" [] []
  exact ⟨h.1, rfl, h.2.2 ⟨5, "E", "u1", "ip1", "ua1", "d", "INFO"⟩
    ⟨5, "E", "u2", "ip2", "ua2", "d", "INFO"⟩ rfl rfl rfl rfl⟩

/-- Unfolding equation of `getClientIP` for a present header value. -/
theorem getClientIP_some (isIP : String → Bool) (s : String) (remote_addr : Option String) :
    getClientIP isIP (some s) remote_addr
      = (if isIP (extractIp s) then
           if strLen (extractIp s) ≤ 45 then extractIp s else "Invalid_IP"
         else "Unknown_IP") := rfl

/-- Unfolding equation of `getClientIP` for an absent header with a
present `remote_addr`. -/
theorem getClientIP_fallback (isIP : String → Bool) (s : String) :
    getClientIP isIP none (some s)
      = (if isIP (extractIp s) then
           if strLen (extractIp s) ≤ 45 then extractIp s else "Invalid_IP"
         else "Unknown_IP") := rfl

/-- C7 counterexample: a malformed value is labelled `'Unknown_IP'` (the
`ValueError` lands in the generic handler), not `'Invalid_IP'` as
claimed. -/
theorem client_ip_malformed_label_counterexample :
    isIPAddress (extractIp "not-an-ip") = false ∧
    getClientIP isIPAddress (some "not-an-ip") none = "Unknown_IP" ∧
    ("Unknown_IP" : String) ≠ "Invalid_IP" := by decide

/-- C7 amended: for every header input the resolver returns one of the
two labels or a string the validator accepts of at most 45 characters —
never the raw malformed value; malformed values are labelled
`'Unknown_IP'`, valid-but-oversized values `'Invalid_IP'`, and an
absent IP `'Unknown_IP'`. -/
theorem client_ip_amended (isIP : String → Bool) (xff remote_addr : Option String) :
    (getClientIP isIP xff remote_addr = "Unknown_IP" ∨
     getClientIP isIP xff remote_addr = "Invalid_IP" ∨
     (isIP (getClientIP isIP xff remote_addr) = true ∧
       strLen (getClientIP isIP xff remote_addr) ≤ 45)) ∧
    (∀ s, isIP (extractIp s) = false →
      getClientIP isIP (some s) remote_addr = "Unknown_IP") ∧
    (∀ s, isIP (extractIp s) = true → 45 < strLen (extractIp s) →
      getClientIP isIP (some s) remote_addr = "Invalid_IP") ∧
    (xff = none → remote_addr = none →
      getClientIP isIP xff remote_addr = "Unknown_IP") := by
  refine ⟨?_, ?_, ?_, ?_⟩
  · cases xff with
    | some s =>
      rw [getClientIP_some]
      by_cases h1 : isIP (extractIp s)
      · by_cases h2 : strLen (extractIp s) ≤ 45
        · right; right
          rw [if_pos h1, if_pos h2]
          exact ⟨h1, h2⟩
        · right; left
          rw [if_pos h1, if_neg h2]
      · left
        rw [if_neg (by simp [h1])]
    | none =>
      cases remote_addr with
      | some s =>
        rw [getClientIP_fallback]
        by_cases h1 : isIP (extractIp s)
        · by_cases h2 : strLen (extractIp s) ≤ 45
          · right; right
            rw [if_pos h1, if_pos h2]
            exact ⟨h1, h2⟩
          · right; left
            rw [if_pos h1, if_neg h2]
        · left
          rw [if_neg (by simp [h1])]
      | none => left; rfl
  · intro s h
    rw [getClientIP_some, if_neg (by simp [h])]
  · intro s h1 h2
    rw [getClientIP_some, if_pos h1, if_neg (not_le.mpr h2)]
  · intro hx hr
    subst hx; subst hr; rfl

/-- Witness for C7 amended: a malformed value, an accepted oversized
value (under a validator that accepts it, as `ipaddress` does for long
scoped IPv6 strings), and the absent case. -/
theorem client_ip_amended_witness :
    (isIPAddress (extractIp "not-an-ip") = false) ∧
    getClientIP isIPAddress (some "not-an-ip") none = "Unknown_IP" ∧
    ((fun _ => true : String → Bool) (extractIp (String.mk (List.replicate 46 '1'))) = true) ∧
    (45 < strLen (extractIp (String.mk (List.replicate 46 '1')))) ∧
    getClientIP (fun _ => true) (some (String.mk (List.replicate 46 '1'))) none
      = "Invalid_IP" ∧
    getClientIP isIPAddress none none = "Unknown_IP" := by
  have h := client_ip_amended isIPAddress (some "not-an-ip") none
  have h46 := client_ip_amended (fun _ => true)
    (some (String.mk (List.replicate 46 '1'))) none
  exact ⟨by decide, h.2.1 "not-an-ip" (by decide), rfl, by decide,
    h46.2.2.1 (String.mk (List.replicate 46 '1')) rfl (by decide),
    (client_ip_amended isIPAddress none none).2.2.2 rfl rfl⟩

/-- C9: the hourly cleanup deletes exactly the audit events and failed
attempts strictly older than `AUDIT_RETENTION_DAYS` and the CSRF tokens
whose `expires_at` is strictly in the past, and retains everything
inside the window; the default retention is 2190 days (six years). -/
theorem cleanup_retention_exact (cfg : Config) (now : Int) (store : Store) :
    (∀ e : AuditEvent, e ∈ (cleanupOldData cfg now store).audit_logs ↔
      (e ∈ store.audit_logs ∧ now - cfg.AUDIT_RETENTION_DAYS * 86400 ≤ e.timestamp)) ∧
    (∀ a : FailedAttempt, a ∈ (cleanupOldData cfg now store).failed_attempts ↔
      (a ∈ store.failed_attempts ∧ now - cfg.AUDIT_RETENTION_DAYS * 86400 ≤ a.timestamp)) ∧
    (∀ t : CsrfToken, t ∈ (cleanupOldData cfg now store).csrf_tokens ↔
      (t ∈ store.csrf_tokens ∧ now ≤ t.expires_at)) ∧
    defaultConfig.AUDIT_RETENTION_DAYS = 2190 := by
  refine ⟨?_, ?_, ?_, rfl⟩ <;> intro x <;>
    simp [cleanupOldData, List.mem_filter, not_lt]

end HipaaSec
